import Mathlib

/-!
Verification of the chainswarm/subnet2 tournament engine against its
natural-language specification.

The definitions below are a shallow embedding of the Python sources:

* src/evaluation/managers/scoring_manager.py  (AnalyticsScoringManager)
* src/evaluation/managers/submission_manager.py (SubmissionManager)
* src/evaluation/tasks/evaluation_task.py     (run_submission_task,
  run_all_submissions_task)
* src/evaluation/tasks/epoch_end_task.py      (calculate_final_rankings)
* src/evaluation/models/database.py           (AnalyticsTournament.get_network_for_epoch)
* src/neurons/validator.py                    (Validator.collect_submissions)
* src/template/protocol.py                    (SubmissionSynapse.validate_submission_data)

Pandas dataframes are modelled as lists of typed rows together with their
column-name lists; Python floats are modelled as rationals; Python sets of
address strings are modelled as Finset String.
-/

/-- One row of transfers.parquet, restricted to the two columns the scoring
manager reads (scoring_manager.py lines 231-234). -/
structure Transfer where
  from_address : String
  to_address : String
  deriving DecidableEq, Repr

/-- The features dataframe as the schema validator sees it: the column names
and the grid of cells, a cell being none when it is null/NaN
(scoring_manager.py lines 135-160 touch nothing else of the frame). -/
structure FeaturesDF where
  columns : List String
  rows : List (List (Option String))
  deriving DecidableEq, Repr

/-- The cell of a patterns row in the `addresses` column: pandas may hold a
list/tuple there or a scalar that the code stringifies and splits on commas
(scoring_manager.py lines 276-280). A null cell is `Option.none` outside. -/
inductive AddrCell where
  | arr (xs : List String)
  | scalar (s : String)
  deriving DecidableEq, Repr

/-- One row of the miner's patterns dataframe, restricted to the columns
validate_all_patterns and validate_patterns_schema read. none models a
missing/NaN cell. -/
structure PatternRow where
  pattern_type : String
  addresses : Option AddrCell
  address_path : Option (List String)
  address : Option String
  source_address : Option String
  target_address : Option String
  deriving DecidableEq, Repr

/-- The patterns dataframe: its column names (membership tests such as
`'addresses' in pattern` consult the row's index, i.e. the column list) and
its rows. -/
structure PatternsDF where
  columns : List String
  rows : List PatternRow
  deriving DecidableEq, Repr

/-- Python truthiness of the `addresses` cell: absent/NaN, the empty list and
the empty string are falsy. -/
def truthyAddrCell : Option AddrCell → Bool
  | none => false
  | some (AddrCell.arr xs) => !xs.isEmpty
  | some (AddrCell.scalar s) => !(s == "")

/-- Python truthiness of a list-valued cell such as `address_path`. -/
def truthyListCell : Option (List String) → Bool
  | none => false
  | some l => !l.isEmpty

/-- `pd.notna(pattern[col])` followed by append: a present cell contributes
one element (scoring_manager.py lines 286-288). -/
def notnaToList : Option String → List String
  | none => []
  | some a => [a]

/-- Pattern-address extraction precedence of validate_all_patterns
(scoring_manager.py lines 273-288): `addresses` (list taken as-is, scalar
split on commas) then `address_path` then the non-null ones among
address, source_address, target_address. -/
def extract_pattern_addresses (columns : List String) (p : PatternRow) : List String :=
  if columns.contains "addresses" && truthyAddrCell p.addresses then
    match p.addresses with
    | some (AddrCell.arr xs) => xs
    | some (AddrCell.scalar s) => s.splitOn ","
    | none => []
  else if columns.contains "address_path" && truthyListCell p.address_path then
    p.address_path.getD []
  else
    (if columns.contains "address" then notnaToList p.address else []) ++
    (if columns.contains "source_address" then notnaToList p.source_address else []) ++
    (if columns.contains "target_address" then notnaToList p.target_address else [])

/-- The adjacent-pair loop of verify_pattern_flows (scoring_manager.py lines
226-238): every consecutive pair must appear as a transfer row. -/
def flowsOk (transfers_df : List Transfer) : List String → Bool
  | a :: b :: rest =>
    transfers_df.any (fun t => t.from_address == a && t.to_address == b) &&
    flowsOk transfers_df (b :: rest)
  | _ => true

/-- AnalyticsScoringManager.verify_pattern_flows (scoring_manager.py lines
205-239): false for paths shorter than 2, else the adjacent-pair check. -/
def verify_pattern_flows (pattern_addresses : List String) (transfers_df : List Transfer) : Bool :=
  if pattern_addresses.length < 2 then false
  else flowsOk transfers_df pattern_addresses

/-- What one loop iteration of validate_all_patterns decides for one pattern
row (scoring_manager.py lines 290-307). -/
inductive PatClass where
  | invalid
  | synthetic (overlap : Finset String)
  | novel
  deriving DecidableEq

/-- The classification of one pattern row by the loop body of
validate_all_patterns: empty sequence is invalid; a multi-address sequence
whose flows fail verification is invalid; otherwise a nonempty ground-truth
overlap makes it synthetic and no overlap makes it a valid novelty. -/
def classify_pattern (gt : Finset String) (transfers_df : List Transfer)
    (columns : List String) (p : PatternRow) : PatClass :=
  let pattern_addresses := extract_pattern_addresses columns p
  if pattern_addresses.isEmpty then PatClass.invalid
  else if 2 ≤ pattern_addresses.length ∧ verify_pattern_flows pattern_addresses transfers_df = false then
    PatClass.invalid
  else
    let overlap := pattern_addresses.toFinset ∩ gt
    if overlap.Nonempty then PatClass.synthetic overlap else PatClass.novel

/-- PatternValidationResult (scoring_manager.py lines 17-30). -/
structure PatternValidationResult where
  synthetic_addresses_expected : Nat
  synthetic_addresses_found : Nat
  novelty_valid : Nat
  novelty_invalid : Nat
  total_reported : Nat
  deriving DecidableEq, Repr

/-- One iteration of the validate_all_patterns loop updating
(found_gt_addresses, novelty_valid, novelty_invalid). -/
def validationStep (gt : Finset String) (transfers_df : List Transfer) (columns : List String)
    (acc : Finset String × Nat × Nat) (p : PatternRow) : Finset String × Nat × Nat :=
  match classify_pattern gt transfers_df columns p with
  | PatClass.invalid => (acc.1, acc.2.1, acc.2.2 + 1)
  | PatClass.synthetic overlap => (acc.1 ∪ overlap, acc.2.1, acc.2.2)
  | PatClass.novel => (acc.1, acc.2.1 + 1, acc.2.2)

/-- AnalyticsScoringManager.validate_all_patterns (scoring_manager.py lines
241-315). The ground-truth frame enters through its address column. -/
def validate_all_patterns (patterns_df : PatternsDF) (transfers_df : List Transfer)
    (ground_truth : List String) : PatternValidationResult :=
  let gt := ground_truth.toFinset
  let r := patterns_df.rows.foldl (validationStep gt transfers_df patterns_df.columns) (∅, 0, 0)
  { synthetic_addresses_expected := gt.card
    synthetic_addresses_found := r.1.card
    novelty_valid := r.2.1
    novelty_invalid := r.2.2
    total_reported := patterns_df.rows.length }

/-- The fixed set of admissible pattern_type values (scoring_manager.py lines
179-182). -/
def valid_pattern_types : List String :=
  ["cycle", "layering_path", "smurfing_network", "proximity_risk",
   "motif_fanin", "motif_fanout", "temporal_burst", "threshold_evasion"]

/-- The values of the address column of the features frame, empty when the
column is absent. -/
def featuresAddressColumn (f : FeaturesDF) : List (Option String) :=
  match f.columns.findIdx? (fun c => c == "address") with
  | some i => f.rows.map (fun r => r.getD i none)
  | none => []

/-- AnalyticsScoringManager.validate_features_schema (scoring_manager.py lines
135-160): nonempty frame, an address column free of nulls, at least 5
columns. -/
def validate_features_schema (features_df : FeaturesDF) : Bool :=
  if features_df.rows.isEmpty then false
  else if !(features_df.columns.contains "address") then false
  else if (featuresAddressColumn features_df).any (fun v => v.isNone) then false
  else if features_df.columns.length < 5 then false
  else true

/-- AnalyticsScoringManager.validate_patterns_schema (scoring_manager.py lines
162-189): nonempty frame, pattern_id and pattern_type columns, every
pattern_type value in the fixed set. -/
def validate_patterns_schema (patterns_df : PatternsDF) : Bool :=
  if patterns_df.rows.isEmpty then false
  else if !(patterns_df.columns.contains "pattern_id" && patterns_df.columns.contains "pattern_type") then false
  else if patterns_df.rows.any (fun p => !(valid_pattern_types.contains p.pattern_type)) then false
  else true

/-- AnalyticsScoringManager.validate_output_schema (scoring_manager.py lines
191-199). -/
def validate_output_schema (features_df : FeaturesDF) (patterns_df : PatternsDF) : Bool :=
  validate_features_schema features_df && validate_patterns_schema patterns_df

/-- AnalyticsScoringManager.calculate_performance_score (scoring_manager.py
lines 321-344). -/
def calculate_performance_score (execution_time baseline_time max_time : ℚ) : ℚ :=
  if max_time ≤ execution_time then 0
  else if execution_time ≤ 0 then 1
  else
    let r := baseline_time / execution_time
    min 1 (max 0 (r / (1 + r)))

/-- AnalyticsScoringManager.calculate_synthetic_recall (scoring_manager.py
lines 346-359). -/
def calculate_synthetic_recall (addresses_found addresses_expected : Nat) : ℚ :=
  if addresses_expected = 0 then 1
  else (addresses_found : ℚ) / (addresses_expected : ℚ)

/-- Python's int() applied to a rational: truncation toward zero. -/
def pyInt (q : ℚ) : Int := if 0 ≤ q then ⌊q⌋ else ⌈q⌉

/-- AnalyticsScoringManager.calculate_novelty_score (scoring_manager.py lines
387-407); novelty_cap is the manager's novelty_cap_ratio field. -/
def calculate_novelty_score (novelty_cap : ℚ) (novelty_valid synthetic_expected : Nat) : ℚ :=
  if synthetic_expected = 0 then 0
  else
    let max_novelty_credit := pyInt ((synthetic_expected : ℚ) * novelty_cap)
    if max_novelty_credit = 0 then 0
    else
      let credited_novelty := min (novelty_valid : Int) max_novelty_credit
      (credited_novelty : ℚ) / (max_novelty_credit : ℚ)

/-- The state of an AnalyticsScoringManager instance: the seven constructor
arguments stored by __init__ (scoring_manager.py lines 96-124). -/
structure AnalyticsScoringManager where
  feature_weight : ℚ
  synthetic_weight : ℚ
  novelty_weight : ℚ
  novelty_cap_ratio : ℚ
  baseline_feature_time : ℚ
  baseline_pattern_time : ℚ
  feature_column_tolerance : ℚ
  deriving DecidableEq, Repr

/-- Class constant FEATURE_PERFORMANCE_WEIGHT (scoring_manager.py line 78). -/
def FEATURE_PERFORMANCE_WEIGHT : ℚ := 0.25

/-- Class constant SYNTHETIC_RECALL_WEIGHT (scoring_manager.py line 79). -/
def SYNTHETIC_RECALL_WEIGHT : ℚ := 0.50

/-- Class constant NOVELTY_DISCOVERY_WEIGHT (scoring_manager.py line 80). -/
def NOVELTY_DISCOVERY_WEIGHT : ℚ := 0.25

/-- Class constant MAX_FEATURE_GENERATION_TIME (scoring_manager.py line 89). -/
def MAX_FEATURE_GENERATION_TIME : ℚ := 300

/-- AnalyticsScoringManager.__init__ (scoring_manager.py lines 96-129): the
instance exists unless the three weights miss 1.0 by more than 0.001, in
which case ValueError is raised (modelled as none). -/
def mkAnalyticsScoringManager (feature_weight synthetic_weight novelty_weight
    novelty_cap baseline_feature_time baseline_pattern_time tolerance : ℚ) :
    Option AnalyticsScoringManager :=
  if 1/1000 < |feature_weight + synthetic_weight + novelty_weight - 1| then none
  else some ⟨feature_weight, synthetic_weight, novelty_weight, novelty_cap,
             baseline_feature_time, baseline_pattern_time, tolerance⟩

/-- ScoreResult (scoring_manager.py lines 33-58). -/
structure ScoreResult where
  output_schema_valid : Bool
  pattern_existence : Bool
  feature_generation_time : ℚ
  pattern_detection_time : ℚ
  patterns_reported : Nat
  synthetic_addresses_expected : Nat
  synthetic_addresses_found : Nat
  novelty_valid : Nat
  novelty_invalid : Nat
  feature_performance_score : ℚ
  synthetic_recall_score : ℚ
  pattern_precision_score : ℚ
  novelty_discovery_score : ℚ
  pattern_performance_score : ℚ
  final_score : ℚ
  deriving DecidableEq, Repr

/-- AnalyticsScoringManager.calculate_score (scoring_manager.py lines
413-551): gate 1 on the output schema, gate 2 zero tolerance on fake
patterns, gate 3 on pattern existence, then the weighted final score using
the class constants. -/
def calculate_score (m : AnalyticsScoringManager) (features_df : FeaturesDF)
    (patterns_df : PatternsDF) (transfers_df : List Transfer) (ground_truth : List String)
    (feature_generation_time pattern_detection_time : ℚ) : ScoreResult :=
  if !(validate_output_schema features_df patterns_df) then
    { output_schema_valid := false
      pattern_existence := false
      feature_generation_time := feature_generation_time
      pattern_detection_time := pattern_detection_time
      patterns_reported := 0
      synthetic_addresses_expected := 0
      synthetic_addresses_found := 0
      novelty_valid := 0
      novelty_invalid := 0
      feature_performance_score := 0
      synthetic_recall_score := 0
      pattern_precision_score := 0
      novelty_discovery_score := 0
      pattern_performance_score := 0
      final_score := 0 }
  else
    let validation := validate_all_patterns patterns_df transfers_df ground_truth
    if 0 < validation.novelty_invalid then
      { output_schema_valid := true
        pattern_existence := false
        feature_generation_time := feature_generation_time
        pattern_detection_time := pattern_detection_time
        patterns_reported := validation.total_reported
        synthetic_addresses_expected := validation.synthetic_addresses_expected
        synthetic_addresses_found := validation.synthetic_addresses_found
        novelty_valid := validation.novelty_valid
        novelty_invalid := validation.novelty_invalid
        feature_performance_score := 0
        synthetic_recall_score := 0
        pattern_precision_score := 0
        novelty_discovery_score := 0
        pattern_performance_score := 0
        final_score := 0 }
    else
      let total_valid := validation.synthetic_addresses_found + validation.novelty_valid
      let feature_performance :=
        calculate_performance_score feature_generation_time m.baseline_feature_time
          MAX_FEATURE_GENERATION_TIME
      let synthetic_recall :=
        calculate_synthetic_recall validation.synthetic_addresses_found
          validation.synthetic_addresses_expected
      let novelty_score :=
        calculate_novelty_score m.novelty_cap_ratio validation.novelty_valid
          validation.synthetic_addresses_expected
      let final_score :=
        if 0 < total_valid then
          FEATURE_PERFORMANCE_WEIGHT * feature_performance +
          SYNTHETIC_RECALL_WEIGHT * synthetic_recall +
          NOVELTY_DISCOVERY_WEIGHT * novelty_score
        else
          FEATURE_PERFORMANCE_WEIGHT * feature_performance
      { output_schema_valid := true
        pattern_existence := decide (0 < total_valid)
        feature_generation_time := feature_generation_time
        pattern_detection_time := pattern_detection_time
        patterns_reported := validation.total_reported
        synthetic_addresses_expected := validation.synthetic_addresses_expected
        synthetic_addresses_found := validation.synthetic_addresses_found
        novelty_valid := validation.novelty_valid
        novelty_invalid := validation.novelty_invalid
        feature_performance_score := feature_performance
        synthetic_recall_score := synthetic_recall
        pattern_precision_score := 1
        novelty_discovery_score := novelty_score
        pattern_performance_score := 0
        final_score := final_score }

/-- Stable insertion used to model Python's sorted(key, reverse=True), which
keeps equal-key elements in their input order: a new element goes after every
already-placed element whose final_score is at least its own. -/
def insertDescByScore (x : String × ScoreResult) :
    List (String × ScoreResult) → List (String × ScoreResult)
  | [] => [x]
  | y :: ys =>
    if x.2.final_score ≤ y.2.final_score then y :: insertDescByScore x ys
    else x :: y :: ys

/-- Python's sorted(scores, key final_score, reverse=True): a stable
descending sort, processing the input left to right. -/
def pySortDescByScore (scores : List (String × ScoreResult)) : List (String × ScoreResult) :=
  scores.foldl (fun acc x => insertDescByScore x acc) []

/-- AnalyticsScoringManager.rank_submissions (scoring_manager.py lines
553-575): stable descending sort on final_score, ranks enumerated from 1,
weight final_score / total (0 when the total is not positive). -/
def rank_submissions (scores : List (String × ScoreResult)) : List (String × Nat × ℚ) :=
  let sorted_scores := pySortDescByScore scores
  let total_score := (sorted_scores.map (fun s => s.2.final_score)).sum
  sorted_scores.enum.map (fun ip =>
    (ip.2.1, ip.1 + 1, if 0 < total_score then ip.2.2.final_score / total_score else 0))

/-- SubmissionResult (evaluation/models/results.py lines 21-24). -/
structure SubmissionResult where
  success : Bool
  docker_image_tag : Option String
  error_message : Option String
  deriving DecidableEq, Repr

/-- The facts about one cloned repository that SubmissionManager's checks
observe: whether the clone/checkout succeeds, whether a Dockerfile exists,
the verdicts of the three security policies (file_validator.py,
code_scanner.py, dockerfile_validator.py) with each policy's first violation
message, and whether docker build succeeds. -/
structure Repo where
  clone_ok : Bool
  dockerfile_exists : Bool
  dockerfile_policy_ok : Bool
  dockerfile_violation : String
  file_policy_ok : Bool
  file_violation : String
  code_policy_ok : Bool
  code_violation : String
  build_ok : Bool
  deriving DecidableEq, Repr

/-- SubmissionManager.validate_submission (submission_manager.py lines
59-76): file policy, then code policy, then Dockerfile policy; the first
violation's message is raised. This function exists in the source but is
never called by the evaluation pipeline. -/
def validate_submission (r : Repo) : Option String :=
  if !r.file_policy_ok then some ("file_validation_failed: " ++ r.file_violation)
  else if !r.code_policy_ok then some ("code_scan_failed: " ++ r.code_violation)
  else if !r.dockerfile_policy_ok then some ("dockerfile_validation_failed: " ++ r.dockerfile_violation)
  else none

/-- SubmissionManager.process_submission (submission_manager.py lines
94-110): clone, validate_dockerfile (existence plus Dockerfile policy only),
build. Any ValueError becomes a failed SubmissionResult carrying the
message. -/
def process_submission (r : Repo) (submission_id : String) : SubmissionResult :=
  if !r.clone_ok then
    { success := false, docker_image_tag := none, error_message := some "clone_failed" }
  else if !r.dockerfile_exists then
    { success := false, docker_image_tag := none, error_message := some "dockerfile_not_found" }
  else if !r.dockerfile_policy_ok then
    { success := false, docker_image_tag := none,
      error_message := some ("dockerfile_validation_failed: " ++ r.dockerfile_violation) }
  else if !r.build_ok then
    { success := false, docker_image_tag := none, error_message := some "build_failed" }
  else
    { success := true, docker_image_tag := some ("subnet2-analyzer:" ++ submission_id),
      error_message := none }

/-- What run_submission_task does to a pending submission's status
(evaluation_task.py lines 77-96): process_submission, then invalid with the
error message on failure or valid on success. -/
def submission_status_after (r : Repo) (submission_id : String) : String × Option String :=
  let result := process_submission r submission_id
  if result.success then ("valid", none) else ("invalid", result.error_message)

/-- The identifying key of an evaluation run: (submission, round/epoch,
network, test date) as in AnalyticsTournamentEvaluationRun
(database.py lines 146-153). -/
structure RunKey where
  submission_id : Nat
  epoch_number : Nat
  network : String
  test_date : String
  deriving DecidableEq, Repr

/-- A persisted evaluation-run row: its primary key, its run key and its
status. -/
structure RunRec where
  id : Nat
  key : RunKey
  status : String
  deriving DecidableEq, Repr

/-- TournamentRepository.create_evaluation_run (tournament_repository.py
lines 117-121): an unconditional insert, no lookup of existing runs. -/
def create_evaluation_run (store : List RunRec) (run : RunRec) : List RunRec :=
  store ++ [run]

/-- The run-creation step of run_submission_task (evaluation_task.py lines
103-113): a fresh id is generated and a new row with status running is
inserted, without consulting the store for an existing run of the same
key. -/
def dispatch_run (store : List RunRec) (fresh_id : Nat) (key : RunKey) : List RunRec :=
  create_evaluation_run store { id := fresh_id, key := key, status := "running" }

/-- The run fan-out of run_all_submissions_task (evaluation_task.py lines
249-263): for every submission, every day below evaluation_days and every
test network, one evaluation task is queued. -/
def plan_runs_all_submissions (submission_ids : List String) (evaluation_days : Nat)
    (test_networks : List String) : List (String × Nat × String) :=
  submission_ids.flatMap (fun sid =>
    (List.range evaluation_days).flatMap (fun day =>
      test_networks.map (fun net => (sid, day, net))))

/-- AnalyticsTournament.get_network_for_epoch (database.py lines 62-80):
errors on an empty network list, indexes directly below the length, and
repeats the last network beyond it. -/
def get_network_for_epoch (test_networks : List String) (epoch_number : Nat) : Option String :=
  if test_networks.isEmpty then none
  else if epoch_number < test_networks.length then test_networks.get? epoch_number
  else test_networks.getLast?

/-- The expected completed-run count per submission used by
calculate_final_rankings (epoch_end_task.py lines 30-33): the epoch count,
one network per epoch. -/
def expected_runs_per_submission (epoch_count : Nat) : Nat := epoch_count

/-- The \w character class of Python's re over ASCII input: letters, digits
and the underscore. -/
def isWordChar (c : Char) : Bool := c.isAlphanum || c == '_'

/-- Python's str.strip() whitespace set, restricted to ASCII. -/
def isPySpace (c : Char) : Bool :=
  c == ' ' || c == '\t' || c == '\n' || c == '\r' || c == '\x0b' || c == '\x0c'

/-- Python's str.strip(): drop whitespace from both ends, modelled on the
character list of the string. -/
def stripChars (cs : List Char) : List Char :=
  ((cs.dropWhile isPySpace).reverse.dropWhile isPySpace).reverse

/-- str.split on a single separator character, keeping empty pieces, as
Python and String.splitOn do. -/
def splitOnChar (sep : Char) : List Char → List (List Char)
  | [] => [[]]
  | c :: rest =>
    let r := splitOnChar sep rest
    if c == sep then [] :: r
    else (c :: r.headD []) :: r.tail

/-- The repository-URL check of SubmissionSynapse.validate_submission_data
(protocol.py line 116): regex https://github.com/[\w-]+/[\w.-]+(\.git)?
anchored at both ends; the optional .git suffix is subsumed by the second
character class. Strings enter as their character lists. -/
def matchGithubUrl (url : List Char) : Bool :=
  let pre := "https://github.com/".data
  if pre.isPrefixOf url then
    match splitOnChar '/' (url.drop pre.length) with
    | [owner, repo] =>
      !owner.isEmpty && owner.all (fun c => isWordChar c || c == '-') &&
      !repo.isEmpty && repo.all (fun c => isWordChar c || c == '.' || c == '-')
    | _ => false
  else false

/-- A hexadecimal digit. -/
def isHexChar (c : Char) : Bool :=
  c.isDigit || ('a' ≤ c && c ≤ 'f') || ('A' ≤ c && c ≤ 'F')

/-- The Git SHA alternative of the commit check (protocol.py line 126): 7 to
40 hexadecimal characters. -/
def isShaRef (cs : List Char) : Bool :=
  7 ≤ cs.length && cs.length ≤ 40 && cs.all isHexChar

/-- The branch-name alternative of the commit check (protocol.py line 130):
1 to 255 characters from [\w\-./]. -/
def isBranchRef (cs : List Char) : Bool :=
  1 ≤ cs.length && cs.length ≤ 255 &&
  cs.all (fun c => isWordChar c || c == '-' || c == '.' || c == '/')

/-- SubmissionSynapse.validate_submission_data (protocol.py lines 57-135):
both fields non-empty, the stripped URL a GitHub HTTPS URL, the stripped
commit a SHA or a branch name. -/
def validate_submission_data (repository_url commit_hash : Option String) : Bool :=
  match repository_url, commit_hash with
  | some u, some c =>
    if u == "" || c == "" then false
    else if !(matchGithubUrl (stripChars u.data)) then false
    else isShaRef (stripChars c.data) || isBranchRef (stripChars c.data)
  | _, _ => false

/-- The per-response persistence decision of Validator.collect_submissions
(validator.py lines 117-163): the response must be a SubmissionSynapse and
both repository_url and commit_hash must be present and non-empty; no other
check is made before the upsert. -/
def should_persist (is_synapse : Bool) (repository_url commit_hash : Option String) : Bool :=
  is_synapse &&
  (match repository_url with | some u => !(u == "") | none => false) &&
  (match commit_hash with | some c => !(c == "") | none => false)

/-- The manager built with the default constructor arguments
(scoring_manager.py lines 96-105). -/
def defaultManager : AnalyticsScoringManager := ⟨0.25, 0.5, 0.25, 0.5, 30, 120, 0.02⟩

/-- A features frame passing the schema gate: address column without nulls
and five columns. -/
def wFeatures : FeaturesDF :=
  ⟨["address", "f1", "f2", "f3", "f4"],
   [[some "A", some "1", some "1", some "1", some "1"]]⟩

/-- A schema-valid patterns frame holding one fabricated two-hop pattern
[A, B]. -/
def wPatternsBad : PatternsDF :=
  ⟨["pattern_id", "pattern_type", "addresses"],
   [⟨"cycle", some (AddrCell.arr ["A", "B"]), none, none, none, none⟩]⟩

/-- Column list of a patterns frame whose rows carry a single address. -/
def c8cols : List String := ["pattern_id", "pattern_type", "address"]

/-- A single-address pattern row (the proximity_risk shape). -/
def c8row : PatternRow := ⟨"proximity_risk", none, none, some "X", none, none⟩

/-- A ScoreResult with final_score 1, used to exhibit ties. -/
def tieScore : ScoreResult :=
  ⟨true, true, 30, 120, 2, 4, 1, 1, 0, 0.5, 0.25, 1, 0.5, 0, 1⟩

/-- A repository that violates the file policy but passes every check
process_submission actually performs. -/
def c4repo : Repo :=
  ⟨true, true, true, "", false, "file exceeds 10 MB", true, "", true⟩

/-- A repository whose Dockerfile violates the Dockerfile policy. -/
def c4badDockerRepo : Repo :=
  ⟨true, true, false, "privileged flag present", true, "", true, "", true⟩

/-- A concrete evaluation-run key. -/
def run_key_ex : RunKey := ⟨0, 0, "torus", "2026-01-01"⟩

lemma flowsOk_eq_true_iff (ts : List Transfer) (l : List String) :
    flowsOk ts l = true ↔
      l.Chain' (fun a b => ∃ t ∈ ts, t.from_address = a ∧ t.to_address = b) := by
  induction l with
  | nil => simp [flowsOk]
  | cons a tl ih =>
    cases tl with
    | nil => simp [flowsOk]
    | cons b rest =>
      rw [List.chain'_cons, ← ih]
      simp [flowsOk, List.any_eq_true, Bool.and_eq_true, beq_iff_eq, and_comm]

lemma classify_pattern_synthetic_subset (gt : Finset String) (ts : List Transfer)
    (cols : List String) (p : PatternRow) (s : Finset String)
    (h : classify_pattern gt ts cols p = PatClass.synthetic s) : s ⊆ gt := by
  simp only [classify_pattern] at h
  split at h
  · simp at h
  · split at h
    · simp at h
    · split at h
      · rw [PatClass.synthetic.injEq] at h
        rw [← h]
        exact Finset.inter_subset_right
      · simp at h

lemma foldl_validationStep_spec (gt : Finset String) (ts : List Transfer) (cols : List String)
    (rows : List PatternRow) :
    ∀ acc : Finset String × Nat × Nat,
      (rows.foldl (validationStep gt ts cols) acc).1 ⊆ acc.1 ∪ gt ∧
      (rows.foldl (validationStep gt ts cols) acc).2.1 =
        acc.2.1 + rows.countP (fun p => decide (classify_pattern gt ts cols p = PatClass.novel)) ∧
      (rows.foldl (validationStep gt ts cols) acc).2.2 =
        acc.2.2 + rows.countP (fun p => decide (classify_pattern gt ts cols p = PatClass.invalid)) := by
  induction rows with
  | nil => intro acc; simp
  | cons p rest ih =>
    intro acc
    simp only [List.foldl_cons, List.countP_cons]
    obtain ⟨h1, h2, h3⟩ := ih (validationStep gt ts cols acc p)
    refine ⟨h1.trans ?_, ?_, ?_⟩
    · rcases hc : classify_pattern gt ts cols p with _ | s | _
      · simp [validationStep, hc]
      · have hs := classify_pattern_synthetic_subset gt ts cols p s hc
        simp only [validationStep, hc]
        intro x hx
        simp only [Finset.mem_union] at hx ⊢
        rcases hx with (hx | hx) | hx
        · exact Or.inl hx
        · exact Or.inr (hs hx)
        · exact Or.inr hx
      · simp [validationStep, hc]
    · rw [h2]
      rcases hc : classify_pattern gt ts cols p with _ | s | _ <;>
        simp [validationStep, hc] <;> omega
    · rw [h3]
      rcases hc : classify_pattern gt ts cols p with _ | s | _ <;>
        simp [validationStep, hc] <;> omega

lemma validate_all_patterns_found_le (pdf : PatternsDF) (ts : List Transfer)
    (gtl : List String) :
    (validate_all_patterns pdf ts gtl).synthetic_addresses_found ≤
      (validate_all_patterns pdf ts gtl).synthetic_addresses_expected := by
  have h := (foldl_validationStep_spec gtl.toFinset ts pdf.columns pdf.rows (∅, 0, 0)).1
  rw [Finset.empty_union] at h
  exact Finset.card_le_card h

lemma validate_all_patterns_novel_eq (pdf : PatternsDF) (ts : List Transfer)
    (gtl : List String) :
    (validate_all_patterns pdf ts gtl).novelty_valid =
      pdf.rows.countP
        (fun p => decide (classify_pattern gtl.toFinset ts pdf.columns p = PatClass.novel)) := by
  have h := (foldl_validationStep_spec gtl.toFinset ts pdf.columns pdf.rows (∅, 0, 0)).2.1
  simpa using h

lemma validate_all_patterns_invalid_eq (pdf : PatternsDF) (ts : List Transfer)
    (gtl : List String) :
    (validate_all_patterns pdf ts gtl).novelty_invalid =
      pdf.rows.countP
        (fun p => decide (classify_pattern gtl.toFinset ts pdf.columns p = PatClass.invalid)) := by
  have h := (foldl_validationStep_spec gtl.toFinset ts pdf.columns pdf.rows (∅, 0, 0)).2.2
  simpa using h

lemma validate_all_patterns_counts_le (pdf : PatternsDF) (ts : List Transfer)
    (gtl : List String) :
    (validate_all_patterns pdf ts gtl).novelty_valid +
      (validate_all_patterns pdf ts gtl).novelty_invalid ≤
      (validate_all_patterns pdf ts gtl).total_reported := by
  rw [validate_all_patterns_novel_eq, validate_all_patterns_invalid_eq]
  have hlen : (validate_all_patterns pdf ts gtl).total_reported = pdf.rows.length := rfl
  rw [hlen]
  have hmono : pdf.rows.countP
      (fun p => decide (classify_pattern gtl.toFinset ts pdf.columns p = PatClass.invalid)) ≤
      pdf.rows.countP
        (fun p => decide
          ¬(decide (classify_pattern gtl.toFinset ts pdf.columns p = PatClass.novel) = true)) := by
    apply List.countP_mono_left
    intro p _ hp
    simp only [decide_eq_true_eq] at hp
    simp [hp]
  have hsplit := List.length_eq_countP_add_countP
    (fun p => decide (classify_pattern gtl.toFinset ts pdf.columns p = PatClass.novel)) pdf.rows
  omega

/-- C1: on any input passing the schema gate, a positive novelty_invalid
count trips Gate 2 of calculate_score: the returned ScoreResult has
final_score 0 and every component score 0, while the pattern counts computed
by validate_all_patterns are still recorded. -/
theorem gate2_zero_tolerance (m : AnalyticsScoringManager) (f : FeaturesDF)
    (p : PatternsDF) (ts : List Transfer) (gt : List String) (fgt pdt : ℚ)
    (hschema : validate_output_schema f p = true)
    (hfake : 0 < (validate_all_patterns p ts gt).novelty_invalid) :
    calculate_score m f p ts gt fgt pdt =
      { output_schema_valid := true
        pattern_existence := false
        feature_generation_time := fgt
        pattern_detection_time := pdt
        patterns_reported := (validate_all_patterns p ts gt).total_reported
        synthetic_addresses_expected := (validate_all_patterns p ts gt).synthetic_addresses_expected
        synthetic_addresses_found := (validate_all_patterns p ts gt).synthetic_addresses_found
        novelty_valid := (validate_all_patterns p ts gt).novelty_valid
        novelty_invalid := (validate_all_patterns p ts gt).novelty_invalid
        feature_performance_score := 0
        synthetic_recall_score := 0
        pattern_precision_score := 0
        novelty_discovery_score := 0
        pattern_performance_score := 0
        final_score := 0 } := by
  simp [calculate_score, hschema, hfake]

/-- C1 witness: a concrete schema-valid input with one fabricated pattern
[A, B] over an empty transfers table. -/
theorem gate2_zero_tolerance_witness :
    validate_output_schema wFeatures wPatternsBad = true ∧
    0 < (validate_all_patterns wPatternsBad [] ["A"]).novelty_invalid ∧
    calculate_score defaultManager wFeatures wPatternsBad [] ["A"] 30 120 =
      { output_schema_valid := true
        pattern_existence := false
        feature_generation_time := 30
        pattern_detection_time := 120
        patterns_reported := (validate_all_patterns wPatternsBad [] ["A"]).total_reported
        synthetic_addresses_expected :=
          (validate_all_patterns wPatternsBad [] ["A"]).synthetic_addresses_expected
        synthetic_addresses_found :=
          (validate_all_patterns wPatternsBad [] ["A"]).synthetic_addresses_found
        novelty_valid := (validate_all_patterns wPatternsBad [] ["A"]).novelty_valid
        novelty_invalid := (validate_all_patterns wPatternsBad [] ["A"]).novelty_invalid
        feature_performance_score := 0
        synthetic_recall_score := 0
        pattern_precision_score := 0
        novelty_discovery_score := 0
        pattern_performance_score := 0
        final_score := 0 } :=
  ⟨by decide, by decide,
    gate2_zero_tolerance defaultManager wFeatures wPatternsBad [] ["A"] 30 120
      (by decide) (by decide)⟩

/-- C9: every ScoreResult returned by calculate_score has
synthetic_addresses_found at most synthetic_addresses_expected, and
novelty_valid plus novelty_invalid at most patterns_reported. -/
theorem score_count_invariants (m : AnalyticsScoringManager) (f : FeaturesDF)
    (p : PatternsDF) (ts : List Transfer) (gt : List String) (fgt pdt : ℚ) :
    (calculate_score m f p ts gt fgt pdt).synthetic_addresses_found ≤
      (calculate_score m f p ts gt fgt pdt).synthetic_addresses_expected ∧
    (calculate_score m f p ts gt fgt pdt).novelty_valid +
        (calculate_score m f p ts gt fgt pdt).novelty_invalid ≤
      (calculate_score m f p ts gt fgt pdt).patterns_reported := by
  have h1 := validate_all_patterns_found_le p ts gt
  have h2 := validate_all_patterns_counts_le p ts gt
  simp only [calculate_score]
  split
  · simp
  · split
    · exact ⟨h1, h2⟩
    · exact ⟨h1, h2⟩

/-- C2: for an address sequence of length at least two, verify_pattern_flows
is true exactly when every adjacent pair appears as a transfer row; and in
validate_all_patterns a multi-address pattern failing this check is counted
in novelty_invalid. -/
theorem verify_flows_iff_adjacent_pairs (pas : List String) (ts : List Transfer)
    (h2 : 2 ≤ pas.length) :
    (verify_pattern_flows pas ts = true ↔
      ∀ (i : Nat) (hi : i + 1 < pas.length),
        ∃ t ∈ ts, t.from_address = pas.get ⟨i, Nat.lt_of_succ_lt hi⟩ ∧
          t.to_address = pas.get ⟨i + 1, hi⟩) ∧
    ∀ (cols : List String) (gtl : List String) (rows : List PatternRow) (p : PatternRow),
      p ∈ rows → extract_pattern_addresses cols p = pas →
      verify_pattern_flows pas ts = false →
      0 < (validate_all_patterns ⟨cols, rows⟩ ts gtl).novelty_invalid := by
  constructor
  · rw [verify_pattern_flows, if_neg (by omega), flowsOk_eq_true_iff, List.chain'_iff_get]
    constructor
    · intro h i hi
      exact h i (by omega)
    · intro h i hi
      exact h i (by omega)
  · intro cols gtl rows p hmem hex hfail
    have hcl : classify_pattern gtl.toFinset ts cols p = PatClass.invalid := by
      simp only [classify_pattern, hex]
      rw [if_neg, if_pos ⟨h2, hfail⟩]
      intro habs
      rw [List.isEmpty_iff] at habs
      rw [habs] at h2
      simp at h2
    rw [validate_all_patterns_invalid_eq]
    apply List.countP_pos_iff.mpr
    exact ⟨p, hmem, by simp [hcl]⟩

/-- C2 witness: the two-address path [A, B] with the transfer A to B
present. -/
theorem verify_flows_iff_adjacent_pairs_witness :
    2 ≤ (["A", "B"] : List String).length ∧
    ((verify_pattern_flows ["A", "B"] [⟨"A", "B"⟩] = true ↔
      ∀ (i : Nat) (hi : i + 1 < (["A", "B"] : List String).length),
        ∃ t ∈ ([⟨"A", "B"⟩] : List Transfer),
          t.from_address = (["A", "B"] : List String).get ⟨i, Nat.lt_of_succ_lt hi⟩ ∧
          t.to_address = (["A", "B"] : List String).get ⟨i + 1, hi⟩) ∧
    ∀ (cols : List String) (gtl : List String) (rows : List PatternRow) (p : PatternRow),
      p ∈ rows → extract_pattern_addresses cols p = ["A", "B"] →
      verify_pattern_flows ["A", "B"] [⟨"A", "B"⟩] = false →
      0 < (validate_all_patterns ⟨cols, rows⟩ [⟨"A", "B"⟩] gtl).novelty_invalid) :=
  ⟨by decide, verify_flows_iff_adjacent_pairs ["A", "B"] [⟨"A", "B"⟩] (by decide)⟩

/-- C8 counterexample: a single-address pattern whose address X appears in
neither the (empty) transfers table nor the (empty) ground truth is still
counted as novelty-valid. -/
theorem single_address_no_transfer_cex :
    extract_pattern_addresses c8cols c8row = ["X"] ∧
    (validate_all_patterns ⟨c8cols, [c8row]⟩ [] []).novelty_valid = 1 ∧
    (validate_all_patterns ⟨c8cols, [c8row]⟩ [] []).novelty_invalid = 0 := by
  decide

/-- C8 amended: a pattern whose derived sequence is one single address is
never flow-checked; it counts as novelty-valid exactly when the address
misses the ground truth, and as a found synthetic address otherwise,
independently of the transfers table. -/
theorem single_address_pattern_validation (cols : List String) (gtl : List String)
    (ts : List Transfer) (p : PatternRow) (a : String)
    (hx : extract_pattern_addresses cols p = [a]) :
    (validate_all_patterns ⟨cols, [p]⟩ ts gtl).novelty_valid =
      (if a ∈ gtl.toFinset then 0 else 1) ∧
    (validate_all_patterns ⟨cols, [p]⟩ ts gtl).novelty_invalid = 0 ∧
    (validate_all_patterns ⟨cols, [p]⟩ ts gtl).synthetic_addresses_found =
      (if a ∈ gtl.toFinset then 1 else 0) := by
  have hcl : classify_pattern gtl.toFinset ts cols p =
      (if a ∈ gtl.toFinset then PatClass.synthetic {a} else PatClass.novel) := by
    simp only [classify_pattern, hx]
    by_cases hmem : a ∈ gtl.toFinset
    · simp [hmem, Finset.singleton_inter_of_mem]
    · simp [hmem, Finset.singleton_inter_of_not_mem]
  simp only [validate_all_patterns, List.foldl_cons, List.foldl_nil, validationStep, hcl]
  by_cases hmem : a ∈ gtl.toFinset
  · simp [hmem]
  · simp [hmem]

/-- C8 witness: address X, ground truth consisting of Y only, empty
transfers. -/
theorem single_address_pattern_validation_witness :
    extract_pattern_addresses c8cols c8row = ["X"] ∧
    ((validate_all_patterns ⟨c8cols, [c8row]⟩ [] ["Y"]).novelty_valid =
      (if "X" ∈ (["Y"] : List String).toFinset then 0 else 1) ∧
    (validate_all_patterns ⟨c8cols, [c8row]⟩ [] ["Y"]).novelty_invalid = 0 ∧
    (validate_all_patterns ⟨c8cols, [c8row]⟩ [] ["Y"]).synthetic_addresses_found =
      (if "X" ∈ (["Y"] : List String).toFinset then 1 else 0)) :=
  ⟨by decide, single_address_pattern_validation c8cols ["Y"] [] c8row "X" (by decide)⟩

lemma insertDescByScore_perm (x : String × ScoreResult) (l : List (String × ScoreResult)) :
    (insertDescByScore x l).Perm (x :: l) := by
  induction l with
  | nil => exact List.Perm.refl _
  | cons y ys ih =>
    simp only [insertDescByScore]
    split
    · exact (ih.cons y).trans (List.Perm.swap x y ys)
    · exact List.Perm.refl _

lemma foldlInsert_perm (l : List (String × ScoreResult)) :
    ∀ acc, (l.foldl (fun a x => insertDescByScore x a) acc).Perm (l ++ acc) := by
  induction l with
  | nil => intro acc; simp
  | cons x xs ih =>
    intro acc
    simp only [List.foldl_cons, List.cons_append]
    exact (ih _).trans
      ((List.Perm.append_left xs (insertDescByScore_perm x acc)).trans List.perm_middle)

lemma pySortDescByScore_perm (scores : List (String × ScoreResult)) :
    (pySortDescByScore scores).Perm scores := by
  simpa using foldlInsert_perm scores []

lemma insertDescByScore_sorted (x : String × ScoreResult) (l : List (String × ScoreResult))
    (h : List.Sorted (fun a b => b.2.final_score ≤ a.2.final_score) l) :
    List.Sorted (fun a b => b.2.final_score ≤ a.2.final_score) (insertDescByScore x l) := by
  induction l with
  | nil => simp [insertDescByScore]
  | cons y ys ih =>
    rw [List.sorted_cons] at h
    simp only [insertDescByScore]
    split
    · rename_i hle
      rw [List.sorted_cons]
      refine ⟨?_, ih h.2⟩
      intro b hb
      rcases List.mem_cons.mp ((insertDescByScore_perm x ys).mem_iff.mp hb) with rfl | hb
      · exact hle
      · exact h.1 b hb
    · rename_i hgt
      rw [List.sorted_cons]
      refine ⟨?_, List.sorted_cons.mpr h⟩
      intro b hb
      rcases List.mem_cons.mp hb with rfl | hb
      · exact le_of_lt (not_le.mp hgt)
      · exact (h.1 b hb).trans (le_of_lt (not_le.mp hgt))

lemma pySortDescByScore_sorted (scores : List (String × ScoreResult)) :
    List.Sorted (fun a b => b.2.final_score ≤ a.2.final_score) (pySortDescByScore scores) := by
  have hgen : ∀ (l acc : List (String × ScoreResult)),
      List.Sorted (fun a b => b.2.final_score ≤ a.2.final_score) acc →
      List.Sorted (fun a b => b.2.final_score ≤ a.2.final_score)
        (l.foldl (fun a x => insertDescByScore x a) acc) := by
    intro l
    induction l with
    | nil => intro acc hacc; simpa using hacc
    | cons x xs ih =>
      intro acc hacc
      simp only [List.foldl_cons]
      exact ih _ (insertDescByScore_sorted x acc hacc)
  exact hgen scores [] (by simp)

lemma enum_map_rank {α : Type} (l : List α) :
    l.enum.map (fun ip => ip.1 + 1) = List.range' 1 l.length := by
  rw [show (fun ip : Nat × α => ip.1 + 1) = (fun n => n + 1) ∘ Prod.fst from rfl,
    ← List.map_map, List.enum_map_fst, List.range'_eq_map_range]
  simp [Nat.add_comm]

lemma enum_map_hotkey {α β : Type} (l : List (α × β)) :
    l.enum.map (fun ip => ip.2.1) = l.map (fun s => s.1) := by
  rw [show (fun ip : Nat × (α × β) => ip.2.1) = (fun s : α × β => s.1) ∘ Prod.snd from rfl,
    ← List.map_map, List.enum_map_snd]

/-- C3 amended: the ranks that rank_submissions assigns are exactly 1..K in
output order (hence a permutation of 1..K), and the output lists the
participants in an order realizing a descending sort of their final scores;
ties keep the input order of the stable sort, with no lexicographic
reordering. -/
theorem rank_descending_permutation (scores : List (String × ScoreResult)) :
    (rank_submissions scores).map (fun t => t.2.1) = List.range' 1 scores.length ∧
    ∃ l : List (String × ScoreResult), l.Perm scores ∧
      List.Sorted (fun a b => b.2.final_score ≤ a.2.final_score) l ∧
      (rank_submissions scores).map (fun t => t.1) = l.map (fun s => s.1) := by
  refine ⟨?_, pySortDescByScore scores, pySortDescByScore_perm scores,
    pySortDescByScore_sorted scores, ?_⟩
  · simp only [rank_submissions, List.map_map]
    rw [← (pySortDescByScore_perm scores).length_eq]
    exact enum_map_rank (pySortDescByScore scores)
  · simp only [rank_submissions, List.map_map]
    exact enum_map_hotkey (pySortDescByScore scores)

/-- C3 counterexample: with equal final scores the stable sort keeps the
input order, so hotkey b (input first) is ranked 1 ahead of the
lexicographically smaller hotkey a. -/
theorem rank_lexicographic_tiebreak_cex :
    ((rank_submissions [("b", tieScore), ("a", tieScore)]).map (fun t => (t.1, t.2.1))) =
      [("b", 1), ("a", 2)] ∧
    ("a" : String).data = ['a'] ∧ ("b" : String).data = ['b'] ∧ ('a' : Char) < 'b' := by
  decide

/-- C10: a manager constructed with any weights passing the sum-to-1.0 check
scores identically to one built with the class constants 0.25/0.50/0.25:
calculate_score never reads the constructor weights, which only feed the
validation. -/
theorem constructor_weights_unused (fw sw nw cap bft bpt tol : ℚ)
    (h : |fw + sw + nw - 1| ≤ 1/1000) :
    mkAnalyticsScoringManager fw sw nw cap bft bpt tol =
      some ⟨fw, sw, nw, cap, bft, bpt, tol⟩ ∧
    ∀ (f : FeaturesDF) (p : PatternsDF) (ts : List Transfer) (gt : List String)
      (fgt pdt : ℚ),
      calculate_score ⟨fw, sw, nw, cap, bft, bpt, tol⟩ f p ts gt fgt pdt =
        calculate_score ⟨FEATURE_PERFORMANCE_WEIGHT, SYNTHETIC_RECALL_WEIGHT,
          NOVELTY_DISCOVERY_WEIGHT, cap, bft, bpt, tol⟩ f p ts gt fgt pdt := by
  constructor
  · rw [mkAnalyticsScoringManager, if_neg (not_lt.mpr h)]
  · intro f p ts gt fgt pdt
    rfl

/-- C10 witness: weights 0.7/0.2/0.1 sum to 1.0, construction succeeds, and
scoring coincides with the constant-weight manager. -/
theorem constructor_weights_unused_witness :
    |(7/10 : ℚ) + 1/5 + 1/10 - 1| ≤ 1/1000 ∧
    (mkAnalyticsScoringManager (7/10) (1/5) (1/10) (1/2) 30 120 (1/50) =
      some ⟨7/10, 1/5, 1/10, 1/2, 30, 120, 1/50⟩ ∧
    ∀ (f : FeaturesDF) (p : PatternsDF) (ts : List Transfer) (gt : List String)
      (fgt pdt : ℚ),
      calculate_score ⟨7/10, 1/5, 1/10, 1/2, 30, 120, 1/50⟩ f p ts gt fgt pdt =
        calculate_score ⟨FEATURE_PERFORMANCE_WEIGHT, SYNTHETIC_RECALL_WEIGHT,
          NOVELTY_DISCOVERY_WEIGHT, 1/2, 30, 120, 1/50⟩ f p ts gt fgt pdt) :=
  ⟨by norm_num,
    constructor_weights_unused (7/10) (1/5) (1/10) (1/2) 30 120 (1/50) (by norm_num)⟩

/-- C4 counterexample: a repository that violates the file policy (and would
be rejected by validate_submission) sails through process_submission, which
checks only the Dockerfile policy before building, and the submission is
marked valid. -/
theorem file_policy_ignored_cex :
    c4repo.file_policy_ok = false ∧
    validate_submission c4repo = some ("file_validation_failed: " ++ c4repo.file_violation) ∧
    process_submission c4repo "s1" =
      { success := true, docker_image_tag := some "subnet2-analyzer:s1", error_message := none } ∧
    submission_status_after c4repo "s1" = ("valid", none) := by
  decide

/-- C4 amended: before the build, process_submission applies only the
Dockerfile policy; a Dockerfile-policy violation makes the submission
invalid with that violation's message, and the file-policy and code-policy
verdicts have no effect on the pipeline's outcome. -/
theorem dockerfile_policy_only (r : Repo) (sid : String)
    (h1 : r.clone_ok = true) (h2 : r.dockerfile_exists = true)
    (h3 : r.dockerfile_policy_ok = false) :
    submission_status_after r sid =
      ("invalid", some ("dockerfile_validation_failed: " ++ r.dockerfile_violation)) ∧
    ∀ (fb cb : Bool) (fm cm : String),
      submission_status_after
        { r with file_policy_ok := fb, file_violation := fm,
                 code_policy_ok := cb, code_violation := cm } sid =
        submission_status_after r sid := by
  refine ⟨?_, fun fb cb fm cm => rfl⟩
  simp [submission_status_after, process_submission, h1, h2, h3]

/-- C4 witness: a concrete repository with a privileged-flag Dockerfile
violation. -/
theorem dockerfile_policy_only_witness :
    c4badDockerRepo.clone_ok = true ∧ c4badDockerRepo.dockerfile_exists = true ∧
    c4badDockerRepo.dockerfile_policy_ok = false ∧
    (submission_status_after c4badDockerRepo "s2" =
      ("invalid", some ("dockerfile_validation_failed: " ++ c4badDockerRepo.dockerfile_violation)) ∧
    ∀ (fb cb : Bool) (fm cm : String),
      submission_status_after
        { c4badDockerRepo with file_policy_ok := fb, file_violation := fm,
                               code_policy_ok := cb, code_violation := cm } "s2" =
        submission_status_after c4badDockerRepo "s2") :=
  ⟨rfl, rfl, rfl, dockerfile_policy_only c4badDockerRepo "s2" rfl rfl rfl⟩

/-- C5 counterexample: dispatching the evaluation task again for a key whose
run is already completed inserts a second run with the same key, so the
store holds two runs for one (submission, round, network, date). -/
theorem dispatch_duplicates_key_cex :
    dispatch_run [⟨0, run_key_ex, "completed"⟩] 1 run_key_ex =
      [⟨0, run_key_ex, "completed"⟩, ⟨1, run_key_ex, "running"⟩] ∧
    (dispatch_run [⟨0, run_key_ex, "completed"⟩] 1 run_key_ex).countP
      (fun r => r.key == run_key_ex) = 2 := by
  decide

/-- C5 amended: every dispatch of run_submission_task inserts one more run
with a fresh id and status running for its key, never consulting the store:
the count of runs for the key grows by one, the previously stored runs
(including any completed run of the same key) are left unchanged in place,
and the store grows by exactly one row. -/
theorem dispatch_always_inserts (store : List RunRec) (fresh_id : Nat) (key : RunKey) :
    (dispatch_run store fresh_id key).countP (fun r => r.key == key) =
      store.countP (fun r => r.key == key) + 1 ∧
    (dispatch_run store fresh_id key).take store.length = store ∧
    (dispatch_run store fresh_id key).length = store.length + 1 := by
  refine ⟨?_, ?_, ?_⟩
  · rw [dispatch_run, create_evaluation_run, List.countP_append]
    simp
  · rw [dispatch_run, create_evaluation_run]
    exact List.take_left store _
  · simp [dispatch_run, create_evaluation_run]

/-- C6: the fan-out actually implemented by run_all_submissions_task queues
one run per (day, network) pair, so with two evaluation days and networks
[a, b] a single submission gets 4 runs with network sequence a, b, a, b;
get_network_for_epoch and the aggregation of epoch_end_task instead expect
exactly epoch_count runs, one per round, with round r on network
test_networks[min(r, len-1)]. -/
theorem run_fanout_contradicts_epoch_mapping :
    (plan_runs_all_submissions ["s1"] 2 ["a", "b"]).length = 4 ∧
    expected_runs_per_submission 2 = 2 ∧
    (plan_runs_all_submissions ["s1"] 2 ["a", "b"]).length ≠ expected_runs_per_submission 2 ∧
    get_network_for_epoch ["a", "b"] 0 = some "a" ∧
    get_network_for_epoch ["a", "b"] 1 = some "b" ∧
    get_network_for_epoch ["a", "b"] 2 = some "b" ∧
    get_network_for_epoch ["a", "b"] 3 = some "b" ∧
    (plan_runs_all_submissions ["s1"] 2 ["a", "b"]).map (fun t => t.2.2) =
      ["a", "b", "a", "b"] := by
  decide

/-- C7 counterexample: a response whose repository URL fails the strict
GitHub format (an ssh remote) is nonetheless persisted by the collection
loop, which checks only non-emptiness. -/
theorem collect_persists_invalid_format_cex :
    should_persist true (some "git@github.com:user/repo.git") (some "main") = true ∧
    validate_submission_data (some "git@github.com:user/repo.git") (some "main") = false := by
  decide

/-- C7 amended: collect_submissions persists every SubmissionSynapse response
whose repository_url and commit_hash are present and non-empty, regardless
of the strict format rules of validate_submission_data, which the collection
loop never invokes. -/
theorem collect_persists_all_nonempty (u c : String) (hu : u ≠ "") (hc : c ≠ "") :
    should_persist true (some u) (some c) = true := by
  simp [should_persist, hu, hc]

/-- C7 witness: a format-violating but non-empty pointer is persisted. -/
theorem collect_persists_all_nonempty_witness :
    ("git@github.com:user/repo.git" : String) ≠ "" ∧ ("weird ref!!" : String) ≠ "" ∧
    should_persist true (some "git@github.com:user/repo.git") (some "weird ref!!") = true :=
  ⟨by decide, by decide,
    collect_persists_all_nonempty "git@github.com:user/repo.git" "weird ref!!"
      (by decide) (by decide)⟩
